import Mathlib

/-!
Shallow embedding of `scripts/launch_container.py` (libmagicxx).

The script orchestrates an external container engine (podman) through
`subprocess.run`.  We model the engine as an oracle mapping a command line
(list of argument strings) to the outcome of attempting that command:
either the subprocess completed with a return code and captured stdout,
or the blocking wait was interrupted by the user (KeyboardInterrupt), or
the invocation could not be started at all (OSError such as
FileNotFoundError / PermissionError).

Every Python function that touches the outside world is embedded as a
computation `PyM α`: a function from the engine oracle to a result
(`Except PyExn α`, where `PyExn` covers the exceptions that can cross
those functions) together with the trace of external events it performed
(engine command invocations and `os.chdir`), in order.
-/

/-- Outcome of one attempted engine subprocess invocation, chosen by the
environment. -/
inductive EngineResp where
  | done (returncode : Int) (stdout : String)
  | interrupted
  | startFailure
  deriving DecidableEq

/-- The engine oracle: what happens when a given command line is executed.
It represents the environment (engine state, user interrupts, OS errors). -/
abbrev Engine : Type := List String → EngineResp

/-- An externally visible event performed by the script, in program order. -/
inductive Event where
  | engineCall (args : List String)
  | chdir (path : List String)
  deriving DecidableEq

/-- Exceptions that can propagate between the embedded functions:
`containerError` models the script's own `ContainerError(message, return_code)`,
`keyboardInterrupt` models `KeyboardInterrupt`, and `osError` models an
OS-level failure to start the subprocess (e.g. `FileNotFoundError`), which
`subprocess.run` raises and which is not a `CalledProcessError`. -/
inductive PyExn where
  | containerError (message : String) (return_code : Int)
  | keyboardInterrupt
  | osError
  deriving DecidableEq

/-- Embedding of `subprocess.CompletedProcess` (the fields the script reads). -/
structure CompletedProcess where
  returncode : Int
  stdout : String
  deriving DecidableEq

/-- A computation of the script: given the engine oracle, produce a result
or an exception, together with the ordered trace of external events. -/
abbrev PyM (α : Type) : Type := Engine → Except PyExn α × List Event

def PyM.pure {α : Type} (a : α) : PyM α := fun _ => (Except.ok a, [])

/-- Sequencing: run `x`; if it raised, the exception propagates and no
event of `f` happens; otherwise run `f` on its value and append traces. -/
def PyM.bind {α β : Type} (x : PyM α) (f : α → PyM β) : PyM β := fun engine =>
  match x engine with
  | (Except.error e, t) => (Except.error e, t)
  | (Except.ok a, t) =>
      match f a engine with
      | (r, t2) => (r, t ++ t2)

/-- Message built by `run_command` for a failed command (the Python f-string
with the surrounding quote characters elided). -/
def commandFailedMessage (args : List String) (code : Int) : String :=
  "Command " ++ String.intercalate " " args ++ " failed with return code " ++ toString code

/-- Embedding of `run_command(args, check=..., capture_output=...)`.
`subprocess.run(args, check=check, ...)` raises `CalledProcessError` when
`check` is set and the return code is non-zero, which the script converts
to `ContainerError` carrying that return code; a `KeyboardInterrupt` or an
OS-level start failure propagates unconverted (only `CalledProcessError`
is caught).  `capture_output` only selects stream capture and does not
affect control flow, so it is carried but unused. -/
def run_command (args : List String) (check : Bool) (_capture_output : Bool) :
    PyM CompletedProcess := fun engine =>
  (match engine args with
   | EngineResp.done code out =>
       if check ∧ code ≠ 0 then
         Except.error (PyExn.containerError (commandFailedMessage args code) code)
       else
         Except.ok ⟨code, out⟩
   | EngineResp.interrupted => Except.error PyExn.keyboardInterrupt
   | EngineResp.startFailure => Except.error PyExn.osError,
   [Event.engineCall args])

/-- Embedding of `os.chdir(path)` (paths are component lists, see `PyPath`). -/
def os_chdir (path : List String) : PyM Unit := fun _ =>
  (Except.ok (), [Event.chdir path])

-- Container configuration constants (verbatim from the script).
def GHCR_IMAGE_BASE : String := "ghcr.io/oguztoraman/libmagicxx-dev"
def DEFAULT_TAG : String := "latest"
def LOCAL_IMAGE_NAME : String := "libmagicxx-dev-local"
def CONTAINER_FILE : String := "Containerfile"
def MOUNT_TARGET : String := "/libmagicxx"

/-- A `pathlib.Path`, modelled as its list of components from the
filesystem root; `.parent` drops the last component. -/
structure PyPath where
  components : List String
  deriving DecidableEq

def PyPath.parent (p : PyPath) : PyPath := ⟨p.components.dropLast⟩

/-- Rendering of an (absolute) path back to a string, as Python does when a
`Path` is interpolated into the mount specification string. -/
def PyPath.render (p : PyPath) : String := "/" ++ String.intercalate "/" p.components

/-- Embedding of the frozen dataclass `ContainerConfig`. -/
structure ContainerConfig where
  image_name : String
  container_file : String
  mount_target : String
  project_root : PyPath
  use_local : Bool
  deriving DecidableEq

-- The exact command lines the script issues, named for reuse in theorems.
def imageExistsCmd (image_name : String) : List String :=
  ["podman", "image", "exists", image_name]

def psCmd (image_name : String) : List String :=
  ["podman", "ps", "-a", "-q", "--filter", "ancestor=" ++ image_name]

def stopCmd (container_ids : List String) : List String :=
  ["podman", "stop"] ++ container_ids

def rmCmd (container_ids : List String) : List String :=
  ["podman", "rm"] ++ container_ids

def rmiCmd (image_name : String) : List String :=
  ["podman", "rmi", image_name]

def pullCmd (image_name : String) : List String :=
  ["podman", "pull", image_name]

def buildCmd (config : ContainerConfig) : List String :=
  ["podman", "build", "--pull=always", "-t", config.image_name, "-f", config.container_file]

/-- The mount specification f-string of `run_container`:
`f"{config.project_root}:{config.mount_target}:Z"`. -/
def mount_spec (config : ContainerConfig) : String :=
  config.project_root.render ++ ":" ++ config.mount_target ++ ":Z"

def runCmd (config : ContainerConfig) : List String :=
  ["podman", "run", "-it", "--rm", "-v", mount_spec config, config.image_name]

/-- Embedding of Python `str.strip()`: drop leading and trailing
whitespace characters. -/
def stripChars (l : List Char) : List Char :=
  ((l.dropWhile Char.isWhitespace).reverse.dropWhile Char.isWhitespace).reverse

def pyStrip (s : String) : String := ⟨stripChars s.data⟩

def splitLinesAux : List Char → List Char → List String
  | [], acc => [⟨acc.reverse⟩]
  | c :: rest, acc =>
      if c = '\n' then ⟨acc.reverse⟩ :: splitLinesAux rest []
      else splitLinesAux rest (c :: acc)

/-- Embedding of Python `str.splitlines` for the strings produced here
(newline-separated container ids): the empty string yields no lines. -/
def splitlines (s : String) : List String :=
  if s = "" then [] else splitLinesAux s.data []

/-- `image_exists(image_name)`: `podman image exists` with `check=False`,
returning whether the return code is zero. -/
def image_exists (image_name : String) : PyM Bool :=
  PyM.bind (run_command (imageExistsCmd image_name) false false) fun result =>
    PyM.pure (result.returncode == 0)

/-- `get_container_ids(image_name)`: `podman ps -a -q --filter ancestor=...`
with `capture_output=True` and the default `check=True`, splitting the
stripped stdout into lines. -/
def get_container_ids (image_name : String) : PyM (List String) :=
  PyM.bind (run_command (psCmd image_name) true true) fun result =>
    PyM.pure (splitlines (pyStrip result.stdout))

/-- `cleanup_containers(container_ids)`: early return when the list is
empty, otherwise `podman stop` then `podman rm`, both with `check=False`. -/
def cleanup_containers (container_ids : List String) : PyM Unit :=
  if container_ids = [] then PyM.pure ()
  else
    PyM.bind (run_command (stopCmd container_ids) false false) fun _ =>
    PyM.bind (run_command (rmCmd container_ids) false false) fun _ =>
    PyM.pure ()

/-- `remove_image(image_name)`: `podman rmi` with `check=False`. -/
def remove_image (image_name : String) : PyM Unit :=
  PyM.bind (run_command (rmiCmd image_name) false false) fun _ =>
  PyM.pure ()

/-- `pull_image(image_name)`: `podman pull` with the default `check=True`. -/
def pull_image (image_name : String) : PyM Unit :=
  PyM.bind (run_command (pullCmd image_name) true false) fun _ =>
  PyM.pure ()

/-- `build_image(config)`: `podman build --pull=always -t <image> -f <file>`
with the default `check=True`. -/
def build_image (config : ContainerConfig) : PyM Unit :=
  PyM.bind (run_command (buildCmd config) true false) fun _ =>
  PyM.pure ()

/-- `run_container(config)`: `podman run -it --rm -v <mount_spec> <image>`
with the default `check=True`. -/
def run_container (config : ContainerConfig) : PyM Unit :=
  PyM.bind (run_command (runCmd config) true false) fun _ =>
  PyM.pure ()

/-- `update_image(config)`: enumerate containers derived from the image,
clean them up, remove the image, then build (local) or pull (registry). -/
def update_image (config : ContainerConfig) : PyM Unit :=
  PyM.bind (get_container_ids config.image_name) fun container_ids =>
  PyM.bind (cleanup_containers container_ids) fun _ =>
  PyM.bind (remove_image config.image_name) fun _ =>
  if config.use_local then build_image config else pull_image config.image_name

/-- `ensure_image_exists(config, force_update=...)`. -/
def ensure_image_exists (config : ContainerConfig) (force_update : Bool) : PyM Unit :=
  PyM.bind (image_exists config.image_name) fun ex =>
    if ex && force_update then update_image config
    else if !ex then
      (if config.use_local then build_image config else pull_image config.image_name)
    else PyM.pure ()

/-- `get_project_root()`: the script path (`Path(__file__).resolve()`,
passed in here as a parameter) minus two components — the parent of the
scripts directory. -/
def get_project_root (script_path : PyPath) : PyPath :=
  script_path.parent.parent

/-- The parsed command-line arguments (`argparse.Namespace`): `tag`
defaults to `DEFAULT_TAG`; `localFlag`, `update`, `verbose` are the
`--local`, `--update`, `--verbose` store-true flags. -/
structure Args where
  tag : String
  localFlag : Bool
  update : Bool
  verbose : Bool
  deriving DecidableEq

/-- The image-name computation of `main`:
`LOCAL_IMAGE_NAME if args.local else f"{GHCR_IMAGE_BASE}:{args.tag}"`. -/
def compute_image_name (localFlag : Bool) (tag : String) : String :=
  if localFlag then LOCAL_IMAGE_NAME else GHCR_IMAGE_BASE ++ ":" ++ tag

/-- The `ContainerConfig` value `main` constructs. -/
def main_config (args : Args) (script_path : PyPath) : ContainerConfig :=
  ⟨compute_image_name args.localFlag args.tag,
   CONTAINER_FILE,
   MOUNT_TARGET,
   get_project_root script_path,
   args.localFlag⟩

/-- The body of `main` after argument parsing: change to the project root,
ensure the image exists, run the container. -/
def main_run (args : Args) (script_path : PyPath) : PyM Unit :=
  PyM.bind (os_chdir (get_project_root script_path).components) fun _ =>
  PyM.bind (ensure_image_exists (main_config args script_path) args.update) fun _ =>
  run_container (main_config args script_path)

/-- How the process terminates: `sys.exit(code)`, or an exception escaping
`main`'s handlers (Python then prints a traceback; there is no
`sys.exit(e.return_code)` on that path). -/
inductive ProcessOutcome where
  | exited (code : Int)
  | unhandled (e : PyExn)
  deriving DecidableEq

/-- The `try/except` of `main`: normal completion exits 0, `ContainerError`
exits with its `return_code`, `KeyboardInterrupt` exits 130; any other
exception (here: the OS-level start failure) is not caught. -/
def main_result (args : Args) (script_path : PyPath) (engine : Engine) :
    ProcessOutcome × List Event :=
  match main_run args script_path engine with
  | (Except.ok _, t) => (ProcessOutcome.exited 0, t)
  | (Except.error (PyExn.containerError _ rc), t) => (ProcessOutcome.exited rc, t)
  | (Except.error PyExn.keyboardInterrupt, t) => (ProcessOutcome.exited 130, t)
  | (Except.error PyExn.osError, t) => (ProcessOutcome.unhandled PyExn.osError, t)

/-- Two consecutive invocations of the reconciler with the same desired
state and no refresh flag (the idempotence scenario of the spec). -/
def ensure_twice (config : ContainerConfig) : PyM Unit :=
  PyM.bind (ensure_image_exists config false) fun _ =>
  ensure_image_exists config false

/-- The acquire command of the decision table: build when the source is
local, pull when it is the registry. -/
def acquireCmd (config : ContainerConfig) : List String :=
  if config.use_local then buildCmd config else pullCmd config.image_name

/-- Engine mutation calls, as opposed to the read-only queries
(`podman image exists`, `podman ps`). -/
def Event.isEngineMutation : Event → Bool
  | Event.engineCall ("podman" :: verb :: _) =>
      ["pull", "build", "stop", "rm", "rmi", "run"].contains verb
  | _ => false

def Event.isChdir : Event → Bool
  | Event.chdir _ => true
  | _ => false

-- Evaluation lemmas for the effect combinators.

theorem PyM.bind_eval_ok {α β : Type} (x : PyM α) (f : α → PyM β) (engine : Engine)
    (a : α) (t : List Event) (h : x engine = (Except.ok a, t)) :
    PyM.bind x f engine = ((f a engine).fst, t ++ (f a engine).snd) := by
  unfold PyM.bind
  rw [h]

theorem PyM.bind_eval_error {α β : Type} (x : PyM α) (f : α → PyM β) (engine : Engine)
    (e : PyExn) (t : List Event) (h : x engine = (Except.error e, t)) :
    PyM.bind x f engine = (Except.error e, t) := by
  unfold PyM.bind
  rw [h]

theorem run_command_eval_done (args : List String) (check cap : Bool) (engine : Engine)
    (code : Int) (out : String) (h : engine args = EngineResp.done code out) :
    run_command args check cap engine =
      (if check ∧ code ≠ 0 then
         Except.error (PyExn.containerError (commandFailedMessage args code) code)
       else Except.ok ⟨code, out⟩,
       [Event.engineCall args]) := by
  unfold run_command
  rw [h]

theorem run_command_eval_nocheck (args : List String) (cap : Bool) (engine : Engine)
    (code : Int) (out : String) (h : engine args = EngineResp.done code out) :
    run_command args false cap engine =
      (Except.ok ⟨code, out⟩, [Event.engineCall args]) := by
  rw [run_command_eval_done args false cap engine code out h]
  simp

theorem run_command_eval_zero (args : List String) (check cap : Bool) (engine : Engine)
    (out : String) (h : engine args = EngineResp.done 0 out) :
    run_command args check cap engine =
      (Except.ok ⟨0, out⟩, [Event.engineCall args]) := by
  rw [run_command_eval_done args check cap engine 0 out h]
  simp

theorem run_command_eval_fail (args : List String) (cap : Bool) (engine : Engine)
    (code : Int) (out : String) (hc : code ≠ 0) (h : engine args = EngineResp.done code out) :
    run_command args true cap engine =
      (Except.error (PyExn.containerError (commandFailedMessage args code) code),
       [Event.engineCall args]) := by
  rw [run_command_eval_done args true cap engine code out h]
  simp [hc]

-- Evaluation lemmas for the embedded script functions, one engine
-- response at a time.

theorem image_exists_eval (image_name : String) (engine : Engine) (c : Int) (s : String)
    (h : engine (imageExistsCmd image_name) = EngineResp.done c s) :
    image_exists image_name engine =
      (Except.ok (c == 0), [Event.engineCall (imageExistsCmd image_name)]) := by
  unfold image_exists
  rw [PyM.bind_eval_ok _ _ engine ⟨c, s⟩ _ (run_command_eval_nocheck _ false engine c s h)]
  rfl

theorem get_container_ids_eval (image_name : String) (engine : Engine) (s : String)
    (h : engine (psCmd image_name) = EngineResp.done 0 s) :
    get_container_ids image_name engine =
      (Except.ok (splitlines (pyStrip s)), [Event.engineCall (psCmd image_name)]) := by
  unfold get_container_ids
  rw [PyM.bind_eval_ok _ _ engine ⟨0, s⟩ _ (run_command_eval_zero _ true true engine s h)]
  rfl

theorem get_container_ids_eval_fail (image_name : String) (engine : Engine)
    (c : Int) (s : String) (hc : c ≠ 0)
    (h : engine (psCmd image_name) = EngineResp.done c s) :
    get_container_ids image_name engine =
      (Except.error (PyExn.containerError (commandFailedMessage (psCmd image_name) c) c),
       [Event.engineCall (psCmd image_name)]) := by
  unfold get_container_ids
  rw [PyM.bind_eval_error _ _ engine _ _ (run_command_eval_fail _ true engine c s hc h)]

theorem cleanup_containers_eval_nil (engine : Engine) :
    cleanup_containers [] engine = (Except.ok (), []) := rfl

theorem cleanup_containers_eval (ids : List String) (engine : Engine)
    (c1 c2 : Int) (o1 o2 : String) (hne : ids ≠ [])
    (h1 : engine (stopCmd ids) = EngineResp.done c1 o1)
    (h2 : engine (rmCmd ids) = EngineResp.done c2 o2) :
    cleanup_containers ids engine =
      (Except.ok (), [Event.engineCall (stopCmd ids), Event.engineCall (rmCmd ids)]) := by
  unfold cleanup_containers
  rw [if_neg hne]
  rw [PyM.bind_eval_ok _ _ engine ⟨c1, o1⟩ _ (run_command_eval_nocheck _ false engine c1 o1 h1)]
  rw [PyM.bind_eval_ok _ _ engine ⟨c2, o2⟩ _ (run_command_eval_nocheck _ false engine c2 o2 h2)]
  rfl

theorem remove_image_eval (image_name : String) (engine : Engine) (c : Int) (o : String)
    (h : engine (rmiCmd image_name) = EngineResp.done c o) :
    remove_image image_name engine =
      (Except.ok (), [Event.engineCall (rmiCmd image_name)]) := by
  unfold remove_image
  rw [PyM.bind_eval_ok _ _ engine ⟨c, o⟩ _ (run_command_eval_nocheck _ false engine c o h)]
  rfl

theorem pull_image_eval (image_name : String) (engine : Engine) (c : Int) (o : String)
    (h : engine (pullCmd image_name) = EngineResp.done c o) :
    pull_image image_name engine =
      (if c = 0 then Except.ok ()
       else Except.error (PyExn.containerError (commandFailedMessage (pullCmd image_name) c) c),
       [Event.engineCall (pullCmd image_name)]) := by
  unfold pull_image
  by_cases hc : c = 0
  · subst hc
    rw [PyM.bind_eval_ok _ _ engine ⟨0, o⟩ _ (run_command_eval_zero _ true false engine o h)]
    simp [PyM.pure]
  · rw [PyM.bind_eval_error _ _ engine _ _ (run_command_eval_fail _ false engine c o hc h)]
    simp [hc]

theorem build_image_eval (config : ContainerConfig) (engine : Engine) (c : Int) (o : String)
    (h : engine (buildCmd config) = EngineResp.done c o) :
    build_image config engine =
      (if c = 0 then Except.ok ()
       else Except.error (PyExn.containerError (commandFailedMessage (buildCmd config) c) c),
       [Event.engineCall (buildCmd config)]) := by
  unfold build_image
  by_cases hc : c = 0
  · subst hc
    rw [PyM.bind_eval_ok _ _ engine ⟨0, o⟩ _ (run_command_eval_zero _ true false engine o h)]
    simp [PyM.pure]
  · rw [PyM.bind_eval_error _ _ engine _ _ (run_command_eval_fail _ false engine c o hc h)]
    simp [hc]

/-- Fused form: the acquire step of the decision table (build when local,
pull otherwise). -/
theorem acquire_eval (config : ContainerConfig) (engine : Engine) (c : Int) (o : String)
    (h : engine (acquireCmd config) = EngineResp.done c o) :
    (if config.use_local then build_image config else pull_image config.image_name) engine =
      (if c = 0 then Except.ok ()
       else Except.error (PyExn.containerError (commandFailedMessage (acquireCmd config) c) c),
       [Event.engineCall (acquireCmd config)]) := by
  unfold acquireCmd at h ⊢
  by_cases hl : config.use_local
  · simp only [hl, if_true] at h ⊢
    exact build_image_eval config engine c o h
  · simp only [hl, if_false] at h ⊢
    exact pull_image_eval config.image_name engine c o h

/-- Fused evaluation of the whole refresh (`update_image`) when every
engine subprocess starts and runs to completion: the cleanup steps may
return any code, only the final acquire code decides the outcome. -/
theorem update_image_eval (config : ContainerConfig) (engine : Engine)
    (s o1 o2 o3 o4 : String) (c1 c2 c3 c4 : Int)
    (hps : engine (psCmd config.image_name) = EngineResp.done 0 s)
    (hstop : engine (stopCmd (splitlines (pyStrip s))) = EngineResp.done c1 o1)
    (hrm : engine (rmCmd (splitlines (pyStrip s))) = EngineResp.done c2 o2)
    (hrmi : engine (rmiCmd config.image_name) = EngineResp.done c3 o3)
    (hacq : engine (acquireCmd config) = EngineResp.done c4 o4) :
    update_image config engine =
      (if c4 = 0 then Except.ok ()
       else Except.error (PyExn.containerError (commandFailedMessage (acquireCmd config) c4) c4),
       Event.engineCall (psCmd config.image_name) ::
         ((if splitlines (pyStrip s) = [] then []
           else [Event.engineCall (stopCmd (splitlines (pyStrip s))),
                 Event.engineCall (rmCmd (splitlines (pyStrip s)))]) ++
          [Event.engineCall (rmiCmd config.image_name),
           Event.engineCall (acquireCmd config)])) := by
  unfold update_image
  rw [PyM.bind_eval_ok _ _ engine (splitlines (pyStrip s)) _
        (get_container_ids_eval config.image_name engine s hps)]
  by_cases hnil : splitlines (pyStrip s) = []
  · rw [hnil]
    rw [PyM.bind_eval_ok _ _ engine () _ (cleanup_containers_eval_nil engine)]
    rw [PyM.bind_eval_ok _ _ engine () _ (remove_image_eval config.image_name engine c3 o3 hrmi)]
    rw [acquire_eval config engine c4 o4 hacq]
    simp [hnil]
  · rw [PyM.bind_eval_ok _ _ engine () _
          (cleanup_containers_eval (splitlines (pyStrip s)) engine c1 c2 o1 o2 hnil hstop hrm)]
    rw [PyM.bind_eval_ok _ _ engine () _ (remove_image_eval config.image_name engine c3 o3 hrmi)]
    rw [acquire_eval config engine c4 o4 hacq]
    simp [hnil]

theorem PyM.bind_pure_snd {α β : Type} (x : PyM α) (f : α → β) (engine : Engine) :
    (PyM.bind x (fun a => PyM.pure (f a)) engine).snd = (x engine).snd := by
  unfold PyM.bind
  rcases hx : x engine with ⟨r, t⟩
  cases r <;> simp [PyM.pure]

/-- The acquire step always issues exactly its one command, whatever the
engine answers (the trace records the attempt even when it fails). -/
theorem acquire_snd (config : ContainerConfig) (engine : Engine) :
    ((if config.use_local then build_image config else pull_image config.image_name) engine).snd =
      [Event.engineCall (acquireCmd config)] := by
  unfold acquireCmd
  by_cases hl : config.use_local <;>
    simp [hl, build_image, pull_image, PyM.bind_pure_snd, run_command]

theorem run_container_snd (config : ContainerConfig) (engine : Engine) :
    (run_container config engine).snd = [Event.engineCall (runCmd config)] := by
  simp [run_container, PyM.bind_pure_snd, run_command]

theorem ensure_image_exists_eval_absent (config : ContainerConfig) (engine : Engine)
    (force_update : Bool) (c : Int) (s : String) (hc : c ≠ 0)
    (h : engine (imageExistsCmd config.image_name) = EngineResp.done c s) :
    ensure_image_exists config force_update engine =
      (((if config.use_local then build_image config else pull_image config.image_name) engine).fst,
       Event.engineCall (imageExistsCmd config.image_name) ::
         ((if config.use_local then build_image config else pull_image config.image_name) engine).snd) := by
  unfold ensure_image_exists
  rw [PyM.bind_eval_ok _ _ engine (c == 0) _ (image_exists_eval config.image_name engine c s h)]
  have hb : (c == 0) = false := by simpa using hc
  simp [hb]

theorem ensure_image_exists_eval_noop (config : ContainerConfig) (engine : Engine) (s : String)
    (h : engine (imageExistsCmd config.image_name) = EngineResp.done 0 s) :
    ensure_image_exists config false engine =
      (Except.ok (), [Event.engineCall (imageExistsCmd config.image_name)]) := by
  unfold ensure_image_exists
  rw [PyM.bind_eval_ok _ _ engine ((0 : Int) == 0) _ (image_exists_eval config.image_name engine 0 s h)]
  simp [PyM.pure]

theorem ensure_image_exists_eval_refresh (config : ContainerConfig) (engine : Engine) (s : String)
    (h : engine (imageExistsCmd config.image_name) = EngineResp.done 0 s) :
    ensure_image_exists config true engine =
      ((update_image config engine).fst,
       Event.engineCall (imageExistsCmd config.image_name) :: (update_image config engine).snd) := by
  unfold ensure_image_exists
  rw [PyM.bind_eval_ok _ _ engine ((0 : Int) == 0) _ (image_exists_eval config.image_name engine 0 s h)]
  simp

-- Shared concrete inputs for witnesses.
def witConfig : ContainerConfig :=
  ⟨"img", "Containerfile", "/libmagicxx", ⟨["home", "proj"]⟩, false⟩

def witEngineOk : Engine := fun _ => EngineResp.done 0 ""

/-- C1: for every combination of (exists, forceRefresh), `ensure_image_exists`
takes exactly the action of the decision table: when the existence check
reports the image absent (non-zero code), the acquire command (build when
local, pull when registry) is the one further engine call whether or not
the refresh flag is set; when the image exists and no refresh is forced,
the trace is the read-only existence check alone (zero mutation calls);
when the image exists and refresh is forced, the run is the existence
check followed by exactly the refresh path (`update_image`). -/
theorem ensure_image_exists_decision_table (config : ContainerConfig) (engine : Engine)
    (force_update : Bool) (c : Int) (s : String)
    (h : engine (imageExistsCmd config.image_name) = EngineResp.done c s) :
    (c ≠ 0 →
      (ensure_image_exists config force_update engine).snd =
        [Event.engineCall (imageExistsCmd config.image_name),
         Event.engineCall (acquireCmd config)]) ∧
    (c = 0 → force_update = false →
      ensure_image_exists config force_update engine =
        (Except.ok (), [Event.engineCall (imageExistsCmd config.image_name)])) ∧
    (c = 0 → force_update = true →
      ensure_image_exists config force_update engine =
        ((update_image config engine).fst,
         Event.engineCall (imageExistsCmd config.image_name) :: (update_image config engine).snd)) ∧
    Event.isEngineMutation (Event.engineCall (imageExistsCmd config.image_name)) = false := by
  refine ⟨fun hc => ?_, fun hc hf => ?_, fun hc hf => ?_, ?_⟩
  · rw [ensure_image_exists_eval_absent config engine force_update c s hc h]
    rw [show (Event.engineCall (imageExistsCmd config.image_name) ::
          ((if config.use_local then build_image config else pull_image config.image_name) engine).snd) =
          _ from congrArg _ (acquire_snd config engine)]
  · subst hc hf
    exact ensure_image_exists_eval_noop config engine s h
  · subst hc hf
    exact ensure_image_exists_eval_refresh config engine s h
  · simp [Event.isEngineMutation, imageExistsCmd]

/-- Witness for C1 at a concrete input: the image exists and no refresh is
forced, so the run is the existence check alone with a successful result. -/
theorem ensure_image_exists_decision_table_witness :
    witEngineOk (imageExistsCmd witConfig.image_name) = EngineResp.done 0 "" ∧
    ensure_image_exists witConfig false witEngineOk =
      (Except.ok (), [Event.engineCall (imageExistsCmd witConfig.image_name)]) :=
  ⟨rfl, (ensure_image_exists_decision_table witConfig witEngineOk false 0 "" rfl).2.1 rfl rfl⟩

/-- Engine in which the container-enumeration step (`podman ps`) exits
non-zero while everything else succeeds. -/
def enumFailEngine : Engine := fun a =>
  if a = psCmd "img" then EngineResp.done 1 "" else EngineResp.done 0 ""

/-- C2 counterexample: the enumeration step of the refresh runs with
`check=True`, so its non-zero exit raises a `ContainerError` and aborts the
refresh before the stop, remove, image-removal and acquire steps — refuting
the claim that no step of the refresh other than the final acquire can
raise.  Concretely, with the image `"img"` present and `podman ps` exiting
1, `update_image` stops at the enumeration call with an error. -/
theorem update_image_enumerate_raises_counterexample :
    update_image witConfig enumFailEngine =
      (Except.error (PyExn.containerError (commandFailedMessage (psCmd "img") 1) 1),
       [Event.engineCall (psCmd "img")]) := rfl

/-- C2 (amended): during a refresh in which every subprocess starts and
runs to completion and the enumeration step succeeds, non-zero exits of
the stale-container stop step, the container remove step and the old-image
remove step do not abort the refresh — all five commands are issued in
order — and the final acquire step alone decides the outcome: the refresh
succeeds exactly when the acquire exits 0, and a non-zero acquire exit
raises a `ContainerError` carrying that code.  (The enumeration step is
not tolerated: its failure also aborts, see the counterexample.) -/
theorem update_image_best_effort_cleanup (config : ContainerConfig) (engine : Engine)
    (s o1 o2 o3 o4 : String) (c1 c2 c3 c4 : Int)
    (hps : engine (psCmd config.image_name) = EngineResp.done 0 s)
    (hstop : engine (stopCmd (splitlines (pyStrip s))) = EngineResp.done c1 o1)
    (hrm : engine (rmCmd (splitlines (pyStrip s))) = EngineResp.done c2 o2)
    (hrmi : engine (rmiCmd config.image_name) = EngineResp.done c3 o3)
    (hacq : engine (acquireCmd config) = EngineResp.done c4 o4) :
    (update_image config engine).snd =
      Event.engineCall (psCmd config.image_name) ::
        ((if splitlines (pyStrip s) = [] then []
          else [Event.engineCall (stopCmd (splitlines (pyStrip s))),
                Event.engineCall (rmCmd (splitlines (pyStrip s)))]) ++
         [Event.engineCall (rmiCmd config.image_name),
          Event.engineCall (acquireCmd config)]) ∧
    ((update_image config engine).fst = Except.ok () ↔ c4 = 0) ∧
    (c4 ≠ 0 → (update_image config engine).fst =
      Except.error (PyExn.containerError (commandFailedMessage (acquireCmd config) c4) c4)) := by
  rw [update_image_eval config engine s o1 o2 o3 o4 c1 c2 c3 c4 hps hstop hrm hrmi hacq]
  refine ⟨rfl, ?_, ?_⟩
  · by_cases hc : c4 = 0 <;> simp [hc]
  · intro hc
    simp [hc]

/-- Engine for the best-effort scenario: one stale container `"cid"`, whose
stop and removal fail (codes 1 and 2), image removal also fails (code 3),
while enumeration and the final pull succeed. -/
def bestEffortEngine : Engine := fun a =>
  if a = psCmd "img" then EngineResp.done 0 "cid"
  else if a = stopCmd ["cid"] then EngineResp.done 1 ""
  else if a = rmCmd ["cid"] then EngineResp.done 2 ""
  else if a = rmiCmd "img" then EngineResp.done 3 ""
  else EngineResp.done 0 ""

/-- Witness for C2 (amended): with the stop, remove and image-removal steps
all failing, the refresh still reaches the acquire and succeeds. -/
theorem update_image_best_effort_cleanup_witness :
    bestEffortEngine (stopCmd (splitlines (pyStrip "cid"))) = EngineResp.done 1 "" ∧
    (update_image witConfig bestEffortEngine).fst = Except.ok () :=
  ⟨by decide,
   ((update_image_best_effort_cleanup witConfig bestEffortEngine
       "cid" "" "" "" "" 1 2 3 0
       (by decide) (by decide) (by decide) (by decide) (by decide)).2.1).mpr rfl⟩

/-- C3: within a refresh in which every subprocess starts and runs to
completion, the engine operations happen in exactly the order: enumerate
containers whose ancestor is the image, stop them, remove them, remove the
image, acquire again — none skipped, reordered or duplicated (when the
enumeration reports no containers, there is nothing to stop or remove and
the per-container steps contribute no calls). -/
theorem update_image_refresh_order (config : ContainerConfig) (engine : Engine)
    (s o1 o2 o3 o4 : String) (c1 c2 c3 c4 : Int)
    (hps : engine (psCmd config.image_name) = EngineResp.done 0 s)
    (hstop : engine (stopCmd (splitlines (pyStrip s))) = EngineResp.done c1 o1)
    (hrm : engine (rmCmd (splitlines (pyStrip s))) = EngineResp.done c2 o2)
    (hrmi : engine (rmiCmd config.image_name) = EngineResp.done c3 o3)
    (hacq : engine (acquireCmd config) = EngineResp.done c4 o4) :
    (splitlines (pyStrip s) ≠ [] →
      (update_image config engine).snd =
        [Event.engineCall (psCmd config.image_name),
         Event.engineCall (stopCmd (splitlines (pyStrip s))),
         Event.engineCall (rmCmd (splitlines (pyStrip s))),
         Event.engineCall (rmiCmd config.image_name),
         Event.engineCall (acquireCmd config)]) ∧
    (splitlines (pyStrip s) = [] →
      (update_image config engine).snd =
        [Event.engineCall (psCmd config.image_name),
         Event.engineCall (rmiCmd config.image_name),
         Event.engineCall (acquireCmd config)]) := by
  rw [update_image_eval config engine s o1 o2 o3 o4 c1 c2 c3 c4 hps hstop hrm hrmi hacq]
  constructor
  · intro hne
    simp [hne]
  · intro hnil
    simp [hnil]

/-- Witness for C3: with one stale container reported, the refresh issues
exactly the five commands in order. -/
theorem update_image_refresh_order_witness :
    bestEffortEngine (psCmd witConfig.image_name) = EngineResp.done 0 "cid" ∧
    (update_image witConfig bestEffortEngine).snd =
      [Event.engineCall (psCmd witConfig.image_name),
       Event.engineCall (stopCmd (splitlines (pyStrip "cid"))),
       Event.engineCall (rmCmd (splitlines (pyStrip "cid"))),
       Event.engineCall (rmiCmd witConfig.image_name),
       Event.engineCall (acquireCmd witConfig)] :=
  ⟨by decide,
   (update_image_refresh_order witConfig bestEffortEngine
       "cid" "" "" "" "" 1 2 3 0
       (by decide) (by decide) (by decide) (by decide) (by decide)).1 (by decide)⟩

theorem run_container_eval (config : ContainerConfig) (engine : Engine) (c : Int) (o : String)
    (h : engine (runCmd config) = EngineResp.done c o) :
    run_container config engine =
      (if c = 0 then Except.ok ()
       else Except.error (PyExn.containerError (commandFailedMessage (runCmd config) c) c),
       [Event.engineCall (runCmd config)]) := by
  unfold run_container
  by_cases hc : c = 0
  · subst hc
    rw [PyM.bind_eval_ok _ _ engine ⟨0, o⟩ _ (run_command_eval_zero _ true false engine o h)]
    simp [PyM.pure]
  · rw [PyM.bind_eval_error _ _ engine _ _ (run_command_eval_fail _ false engine c o hc h)]
    simp [hc]

/-- Evaluation of `main`'s body when the reconciliation phase succeeds. -/
theorem main_run_eval_ok_ensure (args : Args) (script_path : PyPath) (engine : Engine)
    (t : List Event)
    (h : ensure_image_exists (main_config args script_path) args.update engine =
      (Except.ok (), t)) :
    main_run args script_path engine =
      ((run_container (main_config args script_path) engine).fst,
       Event.chdir (get_project_root script_path).components ::
         (t ++ (run_container (main_config args script_path) engine).snd)) := by
  unfold main_run
  rw [PyM.bind_eval_ok _ _ engine () [Event.chdir (get_project_root script_path).components] rfl]
  rw [PyM.bind_eval_ok _ _ engine () t h]
  simp

/-- Evaluation of `main`'s body when the reconciliation phase raises. -/
theorem main_run_eval_ensure_error (args : Args) (script_path : PyPath) (engine : Engine)
    (e : PyExn) (t : List Event)
    (h : ensure_image_exists (main_config args script_path) args.update engine =
      (Except.error e, t)) :
    main_run args script_path engine =
      (Except.error e, Event.chdir (get_project_root script_path).components :: t) := by
  unfold main_run
  rw [PyM.bind_eval_ok _ _ engine () [Event.chdir (get_project_root script_path).components] rfl]
  rw [PyM.bind_eval_error _ _ engine e t h]
  simp

/-- C6: whenever the engine reports the image as already existing, the
reconciler with no refresh flag performs the existence check and nothing
else, succeeding; hence two consecutive invocations with the same desired
state perform the existence check twice and issue zero acquire/refresh
(indeed zero mutating) engine calls. -/
theorem reconciler_idempotent (config : ContainerConfig) (engine : Engine) (s : String)
    (h : engine (imageExistsCmd config.image_name) = EngineResp.done 0 s) :
    ensure_image_exists config false engine =
      (Except.ok (), [Event.engineCall (imageExistsCmd config.image_name)]) ∧
    ensure_twice config engine =
      (Except.ok (), [Event.engineCall (imageExistsCmd config.image_name),
                      Event.engineCall (imageExistsCmd config.image_name)]) ∧
    (∀ e ∈ (ensure_twice config engine).snd, Event.isEngineMutation e = false) := by
  have h1 := ensure_image_exists_eval_noop config engine s h
  have h2 : ensure_twice config engine =
      (Except.ok (), [Event.engineCall (imageExistsCmd config.image_name),
                      Event.engineCall (imageExistsCmd config.image_name)]) := by
    unfold ensure_twice
    rw [PyM.bind_eval_ok _ _ engine () _ h1, h1]
    rfl
  refine ⟨h1, h2, ?_⟩
  intro e he
  rw [h2] at he
  simp only [List.mem_cons, List.not_mem_nil, or_false] at he
  rcases he with rfl | rfl <;> simp [Event.isEngineMutation, imageExistsCmd]

/-- Witness for C6 at a concrete input. -/
theorem reconciler_idempotent_witness :
    witEngineOk (imageExistsCmd witConfig.image_name) = EngineResp.done 0 "" ∧
    ensure_twice witConfig witEngineOk =
      (Except.ok (), [Event.engineCall (imageExistsCmd witConfig.image_name),
                      Event.engineCall (imageExistsCmd witConfig.image_name)]) :=
  ⟨rfl, (reconciler_idempotent witConfig witEngineOk "" rfl).2.1⟩

/-- Default-flag invocation (`tag` defaulted, no `--local`, no `--update`,
no `--verbose`) and a concrete resolved script path, for witnesses. -/
def witArgs : Args := ⟨DEFAULT_TAG, false, false, false⟩

def witPath : PyPath := ⟨["home", "proj", "scripts", "launch_container.py"]⟩

/-- Engine that delivers a user interrupt during the interactive `run`
call and completes every other command successfully. -/
def interruptRunEngine : Engine := fun a =>
  match a with
  | "podman" :: "run" :: _ => EngineResp.interrupted
  | _ => EngineResp.done 0 ""

/-- C7: a `KeyboardInterrupt` delivered while awaiting a blocking engine
call short-circuits the whole remaining computation — sequencing stops at
the interrupted call, so its trace is unchanged and no further engine call
happens — and `main` maps it to process exit code 130. -/
theorem interrupt_exit_130 :
    (∀ (α β : Type) (x : PyM α) (f : α → PyM β) (engine : Engine) (t : List Event),
      x engine = (Except.error PyExn.keyboardInterrupt, t) →
      PyM.bind x f engine = (Except.error PyExn.keyboardInterrupt, t)) ∧
    (∀ (args : Args) (script_path : PyPath) (engine : Engine),
      (main_run args script_path engine).fst = Except.error PyExn.keyboardInterrupt →
      main_result args script_path engine =
        (ProcessOutcome.exited 130, (main_run args script_path engine).snd)) := by
  constructor
  · intro α β x f engine t h
    exact PyM.bind_eval_error x f engine PyExn.keyboardInterrupt t h
  · intro args script_path engine h
    unfold main_result
    rcases hm : main_run args script_path engine with ⟨r, t⟩
    rw [hm] at h
    replace h : r = Except.error PyExn.keyboardInterrupt := h
    subst h
    rfl

/-- Witness for C7: the interrupt arrives during the interactive session
run; the process exits 130 with no engine call after the interrupted one. -/
theorem interrupt_exit_130_witness :
    (main_run witArgs witPath interruptRunEngine).fst = Except.error PyExn.keyboardInterrupt ∧
    main_result witArgs witPath interruptRunEngine =
      (ProcessOutcome.exited 130, (main_run witArgs witPath interruptRunEngine).snd) :=
  ⟨rfl, interrupt_exit_130.2 witArgs witPath interruptRunEngine rfl⟩

/-- Engine in which every command completes successfully except the
interactive `podman run`, which exits with code `n`. -/
def sessionEngine (n : Int) : Engine := fun a =>
  match a with
  | "podman" :: "run" :: _ => EngineResp.done n ""
  | _ => EngineResp.done 0 ""

theorem sessionEngine_acquire (n : Int) (config : ContainerConfig) :
    sessionEngine n (acquireCmd config) = EngineResp.done 0 "" := by
  unfold acquireCmd
  by_cases hl : config.use_local
  · rw [if_pos hl]
    rfl
  · rw [if_neg hl]
    rfl

/-- C4: exit-code passthrough.  Any `ContainerError` raised by a
non-tolerated engine command surfaces as the process exit code it carries,
normal completion exits 0, and in particular for every code `n` the
interactive-session engine call returning `n` yields overall process exit
code `n` (under any flags and script path). -/
theorem exit_code_passthrough :
    (∀ (args : Args) (script_path : PyPath) (engine : Engine) (msg : String) (rc : Int),
      (main_run args script_path engine).fst = Except.error (PyExn.containerError msg rc) →
      (main_result args script_path engine).fst = ProcessOutcome.exited rc) ∧
    (∀ (args : Args) (script_path : PyPath) (engine : Engine),
      (main_run args script_path engine).fst = Except.ok () →
      (main_result args script_path engine).fst = ProcessOutcome.exited 0) ∧
    (∀ (args : Args) (script_path : PyPath) (n : Int),
      (main_result args script_path (sessionEngine n)).fst = ProcessOutcome.exited n) := by
  refine ⟨?_, ?_, ?_⟩
  · intro args script_path engine msg rc h
    unfold main_result
    rcases hm : main_run args script_path engine with ⟨r, t⟩
    rw [hm] at h
    replace h : r = Except.error (PyExn.containerError msg rc) := h
    subst h
    rfl
  · intro args script_path engine h
    unfold main_result
    rcases hm : main_run args script_path engine with ⟨r, t⟩
    rw [hm] at h
    replace h : r = Except.ok () := h
    subst h
    rfl
  · intro args script_path n
    have hE : ∃ t, ensure_image_exists (main_config args script_path) args.update
        (sessionEngine n) = (Except.ok (), t) := by
      by_cases hu : args.update = true
      · have hupd := update_image_eval (main_config args script_path) (sessionEngine n)
          "" "" "" "" "" 0 0 0 0 rfl rfl rfl rfl
          (sessionEngine_acquire n (main_config args script_path))
        have hens := ensure_image_exists_eval_refresh (main_config args script_path)
          (sessionEngine n) "" rfl
        rw [hupd] at hens
        simp only [if_pos] at hens
        exact ⟨_, by rw [hu]; exact hens⟩
      · have hf : args.update = false := by revert hu; cases args.update <;> simp
        have hens := ensure_image_exists_eval_noop (main_config args script_path)
          (sessionEngine n) "" rfl
        exact ⟨_, by rw [hf]; exact hens⟩
    obtain ⟨t, hens⟩ := hE
    have hmain := main_run_eval_ok_ensure args script_path (sessionEngine n) t hens
    have hrun := run_container_eval (main_config args script_path) (sessionEngine n) n "" rfl
    rw [hrun] at hmain
    unfold main_result
    rw [hmain]
    by_cases hn : n = 0
    · simp [hn]
    · simp [hn]

/-- Witness for C4: a session exit code of 3 becomes process exit code 3. -/
theorem exit_code_passthrough_witness :
    (main_result witArgs witPath (sessionEngine 3)).fst = ProcessOutcome.exited 3 :=
  exit_code_passthrough.2.2 witArgs witPath 3

/-- Engine in which no subprocess can be started at all (e.g. the podman
binary is missing or not executable). -/
def startFailEngine : Engine := fun _ => EngineResp.startFailure

/-- C5 counterexample: when the very first engine invocation cannot be
started, the resulting OS-level error is not converted to the script's
`ContainerError` and is not caught by `main`'s handlers (which catch only
`ContainerError` and `KeyboardInterrupt`): the process outcome is an
unhandled exception, not an orderly exit with the error's return code —
refuting the claim that this case is routed through the normal error path. -/
theorem start_failure_unhandled_counterexample :
    main_result witArgs witPath startFailEngine =
      (ProcessOutcome.unhandled PyExn.osError,
       [Event.chdir ["home", "proj"],
        Event.engineCall (imageExistsCmd (compute_image_name false DEFAULT_TAG))]) := rfl

/-- C5 (amended): if an engine invocation cannot be started at all, the
OS-level exception propagates out of `run_command` unconverted (it is not
a `CalledProcessError`, so it does not become a `ContainerError`), and an
OS-level exception reaching `main` escapes as an unhandled exception
rather than being logged and mapped to an exit code. -/
theorem start_failure_escapes :
    (∀ (args : List String) (check cap : Bool) (engine : Engine),
      engine args = EngineResp.startFailure →
      run_command args check cap engine =
        (Except.error PyExn.osError, [Event.engineCall args])) ∧
    (∀ (args : Args) (script_path : PyPath) (engine : Engine),
      (main_run args script_path engine).fst = Except.error PyExn.osError →
      (main_result args script_path engine).fst = ProcessOutcome.unhandled PyExn.osError) := by
  constructor
  · intro args check cap engine h
    unfold run_command
    rw [h]
  · intro args script_path engine h
    unfold main_result
    rcases hm : main_run args script_path engine with ⟨r, t⟩
    rw [hm] at h
    replace h : r = Except.error PyExn.osError := h
    subst h
    rfl

/-- Witness for C5 (amended) at concrete inputs. -/
theorem start_failure_escapes_witness :
    run_command (pullCmd "img") true false startFailEngine =
      (Except.error PyExn.osError, [Event.engineCall (pullCmd "img")]) ∧
    (main_result witArgs witPath startFailEngine).fst =
      ProcessOutcome.unhandled PyExn.osError :=
  ⟨start_failure_escapes.1 (pullCmd "img") true false startFailEngine rfl,
   start_failure_escapes.2 witArgs witPath startFailEngine rfl⟩

/-- C8: acquire command identities.  Registry acquire issues exactly one
pull of the exact identity; the identity for the registry source is always
explicitly tagged (`GHCR_IMAGE_BASE ++ ":" ++ tag`), and with the tag flag
omitted (its argparse default `DEFAULT_TAG`) the identity ends in the
documented default tag.  Local acquire issues exactly one build from the
configured build-definition file with `--pull=always` (upstream base-layer
refresh) tagged with the image name; `main` fixes that file to
`CONTAINER_FILE`; and the local identity is `LOCAL_IMAGE_NAME` regardless
of the tag flag. -/
theorem acquire_command_identities (config : ContainerConfig) (engine : Engine)
    (args : Args) (script_path : PyPath) (tag t1 t2 : String) :
    (pull_image config.image_name engine).snd =
      [Event.engineCall ["podman", "pull", config.image_name]] ∧
    (build_image config engine).snd =
      [Event.engineCall ["podman", "build", "--pull=always", "-t", config.image_name,
                         "-f", config.container_file]] ∧
    (main_config args script_path).container_file = CONTAINER_FILE ∧
    compute_image_name false tag = GHCR_IMAGE_BASE ++ ":" ++ tag ∧
    (∃ stem, compute_image_name false DEFAULT_TAG = stem ++ ":" ++ DEFAULT_TAG) ∧
    compute_image_name true t1 = LOCAL_IMAGE_NAME ∧
    compute_image_name true t1 = compute_image_name true t2 := by
  refine ⟨?_, ?_, rfl, rfl, ⟨GHCR_IMAGE_BASE, rfl⟩, rfl, rfl⟩
  · simp [pull_image, PyM.bind_pure_snd, run_command, pullCmd]
  · simp [build_image, PyM.bind_pure_snd, run_command, buildCmd]

/-- C9: the session runner issues exactly one engine call, an interactive
(`-it`) self-removing (`--rm`) `podman run` of the configured image whose
single volume argument is exactly
`<project_root>:<mount_target>:Z`; under `main`'s configuration the mount
target is the constant `MOUNT_TARGET`, so the argument is exactly
`<project_root>:/libmagicxx:Z` (with the `:Z` SELinux relabeling
annotation). -/
theorem run_session_single_run_call (config : ContainerConfig) (engine : Engine)
    (args : Args) (script_path : PyPath) :
    (run_container config engine).snd =
      [Event.engineCall
        ["podman", "run", "-it", "--rm", "-v",
         config.project_root.render ++ ":" ++ config.mount_target ++ ":Z",
         config.image_name]] ∧
    (main_config args script_path).mount_target = MOUNT_TARGET ∧
    mount_spec (main_config args script_path) =
      (get_project_root script_path).render ++ ":/libmagicxx:Z" := by
  refine ⟨?_, rfl, ?_⟩
  · rw [run_container_snd]
    rfl
  · show (get_project_root script_path).render ++ ":" ++ MOUNT_TARGET ++ ":Z" = _
    rw [String.append_assoc, String.append_assoc]
    rfl

-- Trace purity: the reconciliation and session phases only ever emit
-- engine calls, never a chdir.

def engineOnly (t : List Event) : Prop := ∀ e ∈ t, e.isChdir = false

theorem engineOnly_bind {α β : Type} (x : PyM α) (f : α → PyM β) (engine : Engine)
    (hx : engineOnly (x engine).snd) (hf : ∀ a, engineOnly ((f a) engine).snd) :
    engineOnly ((PyM.bind x f) engine).snd := by
  unfold PyM.bind
  rcases hp : x engine with ⟨r, t⟩
  rw [hp] at hx
  cases r with
  | error e => exact hx
  | ok a =>
      intro e he
      have he2 : e ∈ t ++ (f a engine).snd := he
      rcases List.mem_append.mp he2 with h1 | h2
      · exact hx e h1
      · exact hf a e h2

theorem engineOnly_run_command (args : List String) (check cap : Bool) (engine : Engine) :
    engineOnly (run_command args check cap engine).snd := by
  intro e he
  simp only [run_command, List.mem_singleton] at he
  subst he
  rfl

theorem engineOnly_pure {α : Type} (a : α) (engine : Engine) :
    engineOnly ((PyM.pure a : PyM α) engine).snd := by
  intro e he
  simp [PyM.pure] at he

theorem engineOnly_image_exists (image_name : String) (engine : Engine) :
    engineOnly (image_exists image_name engine).snd :=
  engineOnly_bind _ _ _ (engineOnly_run_command _ _ _ _) (fun _ => engineOnly_pure _ _)

theorem engineOnly_get_container_ids (image_name : String) (engine : Engine) :
    engineOnly (get_container_ids image_name engine).snd :=
  engineOnly_bind _ _ _ (engineOnly_run_command _ _ _ _) (fun _ => engineOnly_pure _ _)

theorem engineOnly_cleanup_containers (ids : List String) (engine : Engine) :
    engineOnly (cleanup_containers ids engine).snd := by
  unfold cleanup_containers
  by_cases hn : ids = []
  · rw [if_pos hn]
    exact engineOnly_pure _ _
  · rw [if_neg hn]
    exact engineOnly_bind _ _ _ (engineOnly_run_command _ _ _ _)
      (fun _ => engineOnly_bind _ _ _ (engineOnly_run_command _ _ _ _)
        (fun _ => engineOnly_pure _ _))

theorem engineOnly_remove_image (image_name : String) (engine : Engine) :
    engineOnly (remove_image image_name engine).snd :=
  engineOnly_bind _ _ _ (engineOnly_run_command _ _ _ _) (fun _ => engineOnly_pure _ _)

theorem engineOnly_pull_image (image_name : String) (engine : Engine) :
    engineOnly (pull_image image_name engine).snd :=
  engineOnly_bind _ _ _ (engineOnly_run_command _ _ _ _) (fun _ => engineOnly_pure _ _)

theorem engineOnly_build_image (config : ContainerConfig) (engine : Engine) :
    engineOnly (build_image config engine).snd :=
  engineOnly_bind _ _ _ (engineOnly_run_command _ _ _ _) (fun _ => engineOnly_pure _ _)

theorem engineOnly_run_container (config : ContainerConfig) (engine : Engine) :
    engineOnly (run_container config engine).snd :=
  engineOnly_bind _ _ _ (engineOnly_run_command _ _ _ _) (fun _ => engineOnly_pure _ _)

theorem engineOnly_update_image (config : ContainerConfig) (engine : Engine) :
    engineOnly (update_image config engine).snd := by
  unfold update_image
  refine engineOnly_bind _ _ _ (engineOnly_get_container_ids _ _) (fun ids => ?_)
  refine engineOnly_bind _ _ _ (engineOnly_cleanup_containers _ _) (fun _ => ?_)
  refine engineOnly_bind _ _ _ (engineOnly_remove_image _ _) (fun _ => ?_)
  by_cases hl : config.use_local
  · rw [if_pos hl]
    exact engineOnly_build_image _ _
  · rw [if_neg hl]
    exact engineOnly_pull_image _ _

theorem engineOnly_ensure_image_exists (config : ContainerConfig) (force_update : Bool)
    (engine : Engine) :
    engineOnly (ensure_image_exists config force_update engine).snd := by
  unfold ensure_image_exists
  refine engineOnly_bind _ _ _ (engineOnly_image_exists _ _) (fun ex => ?_)
  by_cases h1 : (ex && force_update) = true
  · rw [if_pos h1]
    exact engineOnly_update_image _ _
  · rw [if_neg h1]
    by_cases h2 : (!ex) = true
    · rw [if_pos h2]
      by_cases hl : config.use_local
      · rw [if_pos hl]
        exact engineOnly_build_image _ _
      · rw [if_neg hl]
        exact engineOnly_pull_image _ _
    · rw [if_neg h2]
      exact engineOnly_pure _ _

/-- C10: on every invocation, the first external action of `main`'s body is
the change of working directory to the project root — the parent of the
scripts directory, computed by dropping two components from the script's
own resolved path — and it happens before every engine call; no later
event is a chdir (the directory is never changed back), and the
build-definition file argument that later engine commands receive is the
fixed relative name `CONTAINER_FILE`, hence resolved against the project
root. -/
theorem chdir_to_project_root_first (args : Args) (script_path : PyPath) (engine : Engine) :
    (∃ t, (main_run args script_path engine).snd =
        Event.chdir (get_project_root script_path).components :: t ∧
      (∀ e ∈ t, e.isChdir = false)) ∧
    get_project_root script_path = script_path.parent.parent ∧
    (main_config args script_path).container_file = CONTAINER_FILE := by
  refine ⟨⟨(PyM.bind (ensure_image_exists (main_config args script_path) args.update)
      (fun _ => run_container (main_config args script_path)) engine).snd, ?_, ?_⟩, rfl, rfl⟩
  · unfold main_run
    rw [PyM.bind_eval_ok _ _ engine ()
      [Event.chdir (get_project_root script_path).components] rfl]
    rfl
  · exact engineOnly_bind _ _ _
      (engineOnly_ensure_image_exists _ _ _)
      (fun _ => engineOnly_run_container _ _)
